import Mathlib

/-
Shallow embedding of the rusty-scape simulation core (src/src/game.rs).

Random draws made by the Rust code (rand::thread_rng().gen_range, rand::random)
are passed in explicitly as parameters; i16 arithmetic is modelled over ℤ
(no reachable state approaches the i16 range); the f32 score is modelled
over ℚ with the exact increment 1/10.  The OS side effect on death
(spawning a "pause" process) has no effect on the game state and is not
modelled.
-/

/-- GRID_SIZE from game.rs: 30 columns, 20 rows. -/
def GRID_SIZE : ℤ × ℤ := (30, 20)

/-- GridPosition: a 2D integer grid coordinate. -/
structure GridPosition where
  x : ℤ
  y : ℤ
deriving DecidableEq, Repr

/-- GridPosition::new. -/
def GridPosition.new (x y : ℤ) : GridPosition := ⟨x, y⟩

/-- GridPosition::random, with the two uniform draws (over [0, GRID_SIZE.0)
and [0, GRID_SIZE.1) respectively) passed in explicitly. -/
def GridPosition.random (rx ry : ℤ) : GridPosition := ⟨rx, ry⟩

/-- Direction enum from game.rs. -/
inductive Direction
  | left
  | right
  | none
deriving DecidableEq, Repr

/-- GridPosition::new_for_move: Left decrements x, Right increments x,
None leaves the position unchanged. -/
def GridPosition.new_for_move (pos : GridPosition) (dir : Direction) : GridPosition :=
  match dir with
  | Direction.left => GridPosition.new (pos.x - 1) pos.y
  | Direction.right => GridPosition.new (pos.x + 1) pos.y
  | Direction.none => pos

/-- The key codes relevant to Direction::from_keycode: Left, Right, and
a stand-in for every other key. -/
inductive KeyCode
  | left
  | right
  | other
deriving DecidableEq, Repr

/-- Direction::from_keycode. -/
def Direction.from_keycode (k : KeyCode) : Option Direction :=
  match k with
  | KeyCode.left => Option.some Direction.left
  | KeyCode.right => Option.some Direction.right
  | KeyCode.other => Option.none

/-- Segment: the player's single body cell. -/
structure Segment where
  pos : GridPosition
deriving DecidableEq, Repr

/-- Segment::new. -/
def Segment.new (pos : GridPosition) : Segment := ⟨pos⟩

/-- Segment::update: move the cell by the given direction. -/
def Segment.update (s : Segment) (dir : Direction) : Segment :=
  ⟨GridPosition.new_for_move s.pos dir⟩

/-- Obstacle: one grid cell. -/
structure Obstacle where
  pos : GridPosition
deriving DecidableEq, Repr

/-- Obstacle::new. -/
def Obstacle.new (pos : GridPosition) : Obstacle := ⟨pos⟩

/-- PlayerState enum. -/
inductive PlayerState
  | alive
  | dead
deriving DecidableEq, Repr

/-- Player: body cell, current direction, alive/dead state. -/
structure Player where
  body : Segment
  dir : Direction
  state : PlayerState
deriving DecidableEq, Repr

/-- Player::new: given start position, direction None, state Alive. -/
def Player.new (pos : GridPosition) : Player :=
  { body := Segment.new pos, dir := Direction.none, state := PlayerState.alive }

/-- The is_approx_equal helper inside Player::die:
both coordinate deltas within tolerance in absolute value. -/
def is_approx_equal (pos1 pos2 : GridPosition) (tolerance : ℤ) : Bool :=
  decide (|pos1.x - pos2.x| ≤ tolerance) && decide (|pos1.y - pos2.y| ≤ tolerance)

/-- Player::die: true iff some obstacle is approximately equal to the
player's position within the tolerance. -/
def Player.die (p : Player) (obstacles : List Obstacle) (tolerance : ℤ) : Bool :=
  obstacles.any (fun obstacle => is_approx_equal p.body.pos obstacle.pos tolerance)

/-- Player::update: move the body by dir, store dir; if the moved position
collides (tolerance 1) set state Dead, reset the body to
(GRID_SIZE.0 / 2, GRID_SIZE.1 - 1) and the direction to None. -/
def Player.update (p : Player) (dir : Direction) (obstacles : List Obstacle) : Player :=
  let p := { p with body := p.body.update dir, dir := dir }
  if p.die obstacles 1 then
    { p with
      state := PlayerState.dead,
      body := Segment.new (GridPosition.new (GRID_SIZE.1 / 2) (GRID_SIZE.2 - 1)),
      dir := Direction.none }
  else
    p

/-- GameState: player, obstacle list, score (modelled over ℚ). -/
structure GameState where
  player : Player
  obstacles : List Obstacle
  score : ℚ
deriving DecidableEq, Repr

/-- GameState::new, with GridPosition::random's two draws passed in:
player at (GRID_SIZE.0 / 2, GRID_SIZE.1 - 1), one obstacle at the random
position, score 0. -/
def GameState.new (rx ry : ℤ) : GameState :=
  let player := Player.new (GridPosition.new (GRID_SIZE.1 / 2) (GRID_SIZE.2 - 1))
  let obstacles_pos := GridPosition.random rx ry
  let obstacles := [Obstacle.new obstacles_pos]
  { player := player, obstacles := obstacles, score := 0 }

/-- GameState::update_obstacle, with the spawn draw (rand::random < 0.1)
and the spawn column draw (gen_range over [0, GRID_SIZE.0)) passed in:
advance every obstacle one row, retain those with y < GRID_SIZE.1, and if
the spawn draw fired push one new obstacle at (col, 0). -/
def GameState.update_obstacle (s : GameState) (spawn : Bool) (col : ℤ) : GameState :=
  let obstacles := s.obstacles.map
    (fun obstacle => { obstacle with pos := GridPosition.new obstacle.pos.x (obstacle.pos.y + 1) })
  let obstacles := obstacles.filter (fun obstacle => decide (obstacle.pos.y < GRID_SIZE.2))
  let obstacles :=
    if spawn then obstacles ++ [Obstacle.new (GridPosition.new col 0)] else obstacles
  { s with obstacles := obstacles }

/-- The boundary-bounce step at the end of EventHandler::update: if x is
negative while moving Left flip the direction to Right; then if x is at
or beyond GRID_SIZE.0 while moving Right flip the direction to Left. -/
def Player.bounce (p : Player) : Player :=
  let p := if p.body.pos.x < 0 ∧ p.dir = Direction.left then { p with dir := Direction.right } else p
  if p.body.pos.x ≥ GRID_SIZE.1 ∧ p.dir = Direction.right then { p with dir := Direction.left } else p

/-- One tick of EventHandler::update for GameState, in the source's order:
update the player against the current obstacle list, then advance/cull/spawn
obstacles, then the boundary bounce, then (if the player is Alive) add the
score increment 0.1. -/
def GameState.tick (s : GameState) (spawn : Bool) (col : ℤ) : GameState :=
  let s := { s with player := s.player.update s.player.dir s.obstacles }
  let s := s.update_obstacle spawn col
  let s := { s with player := s.player.bounce }
  if s.player.state = PlayerState.alive then { s with score := s.score + 1 / 10 } else s

/-- Tick in the ordering the spec's §4.4 words describe (advance, cull and
spawn the obstacles first, then update the player against the post-advance,
post-cull collection) — written only to compare against GameState.tick. -/
def GameState.tick_spec_order (s : GameState) (spawn : Bool) (col : ℤ) : GameState :=
  let s := s.update_obstacle spawn col
  let s := { s with player := s.player.update s.player.dir s.obstacles }
  let s := { s with player := s.player.bounce }
  if s.player.state = PlayerState.alive then { s with score := s.score + 1 / 10 } else s

/-- EventHandler::key_down_event: map the (optional) key code to a
direction; if it is Left or Right store it as the player's direction. -/
def GameState.key_down_event (s : GameState) (keycode : Option KeyCode) : GameState :=
  match keycode.bind Direction.from_keycode with
  | Option.some dir =>
      if dir = Direction.left ∨ dir = Direction.right then
        { s with player := { s.player with dir := dir } }
      else
        s
  | Option.none => s

/-- An external event delivered to the simulation: one tick (with its two
random draws), or one key-down event. -/
inductive Ev
  | tick (spawn : Bool) (col : ℤ)
  | key (keycode : Option KeyCode)

/-- Apply one event to the state. -/
def GameState.step (s : GameState) : Ev → GameState
  | Ev.tick spawn col => s.tick spawn col
  | Ev.key keycode => s.key_down_event keycode

/-- Apply a sequence of events to the state. -/
def GameState.run (s : GameState) (evs : List Ev) : GameState :=
  evs.foldl GameState.step s

/-- States reachable from GameState::new (for draws within the rng ranges)
by any sequence of ticks and key events. -/
inductive Reachable : GameState → Prop
  | init (rx ry : ℤ) (hx : 0 ≤ rx ∧ rx < GRID_SIZE.1) (hy : 0 ≤ ry ∧ ry < GRID_SIZE.2) :
      Reachable (GameState.new rx ry)
  | step (s : GameState) (e : Ev) (h : Reachable s) : Reachable (s.step e)

/-- The collision predicate as the spec states it: some obstacle within
tolerance of the given position in both coordinates. -/
def collides_within (pos : GridPosition) (obstacles : List Obstacle) (tolerance : ℤ) : Prop :=
  ∃ o ∈ obstacles, |pos.x - o.pos.x| ≤ tolerance ∧ |pos.y - o.pos.y| ≤ tolerance

instance collides_within_decidable (pos : GridPosition) (obstacles : List Obstacle) (tolerance : ℤ) :
    Decidable (collides_within pos obstacles tolerance) :=
  decidable_of_iff
    (∃ o ∈ obstacles, |pos.x - o.pos.x| ≤ tolerance ∧ |pos.y - o.pos.y| ≤ tolerance) Iff.rfl

example : (GameState.new 5 7).obstacles = [Obstacle.new (GridPosition.new 5 7)] := by decide

example :
    (GameState.new 5 7).player.body.pos = GridPosition.new 15 19 := by decide

/-- Player::die returns true exactly when the spec's collision predicate
holds at the player's position. -/
theorem die_iff_collides (p : Player) (obstacles : List Obstacle) (tolerance : ℤ) :
    p.die obstacles tolerance = true ↔ collides_within p.body.pos obstacles tolerance := by
  simp [Player.die, is_approx_equal, collides_within, List.any_eq_true]

/-- The bounce step never touches the player's body. -/
theorem bounce_body (p : Player) : p.bounce.body = p.body := by
  simp only [Player.bounce]
  split_ifs <;> rfl

/-- The bounce step never touches the player's state. -/
theorem bounce_state (p : Player) : p.bounce.state = p.state := by
  simp only [Player.bounce]
  split_ifs <;> rfl

/-- The obstacle phase never touches the player. -/
theorem update_obstacle_player (s : GameState) (spawn : Bool) (col : ℤ) :
    (s.update_obstacle spawn col).player = s.player := rfl

/-- The obstacle phase never touches the score. -/
theorem update_obstacle_score (s : GameState) (spawn : Bool) (col : ℤ) :
    (s.update_obstacle spawn col).score = s.score := rfl

/-- The player after a tick is the player updated against the tick's
initial (pre-advance, pre-cull) obstacle list, then bounced. -/
theorem tick_player_eq (s : GameState) (spawn : Bool) (col : ℤ) :
    (s.tick spawn col).player = (s.player.update s.player.dir s.obstacles).bounce := by
  simp only [GameState.tick, GameState.update_obstacle]
  split_ifs <;> rfl

/-- The obstacles after a tick are those of the obstacle phase applied to
the tick's initial obstacle list. -/
theorem tick_obstacles_eq (s : GameState) (spawn : Bool) (col : ℤ) :
    (s.tick spawn col).obstacles = (s.update_obstacle spawn col).obstacles := by
  simp only [GameState.tick, GameState.update_obstacle]
  split_ifs <;> rfl

/-- The score after a tick: incremented by 1/10 when the final player state
is Alive, unchanged when it is Dead. -/
theorem tick_score_eq (s : GameState) (spawn : Bool) (col : ℤ) :
    (s.tick spawn col).score =
      if (s.tick spawn col).player.state = PlayerState.alive then s.score + 1 / 10 else s.score := by
  rw [tick_player_eq]
  simp only [GameState.tick, GameState.update_obstacle]
  by_cases h : (s.player.update s.player.dir s.obstacles).bounce.state = PlayerState.alive <;>
    simp [h]

/-- Player::update, written as one case split on the spec's collision
predicate at the moved position. -/
theorem player_update_eq (p : Player) (dir : Direction) (obstacles : List Obstacle) :
    p.update dir obstacles =
      if collides_within (GridPosition.new_for_move p.body.pos dir) obstacles 1 then
        { body := Segment.new (GridPosition.new (GRID_SIZE.1 / 2) (GRID_SIZE.2 - 1)),
          dir := Direction.none,
          state := PlayerState.dead }
      else
        { body := Segment.new (GridPosition.new_for_move p.body.pos dir),
          dir := dir,
          state := p.state } := by
  have hd := die_iff_collides { p with body := p.body.update dir, dir := dir } obstacles 1
  simp only [Segment.update] at hd
  simp only [Player.update, Segment.update]
  by_cases h : collides_within (GridPosition.new_for_move p.body.pos dir) obstacles 1
  · rw [if_pos (hd.mpr h), if_pos h]
  · rw [if_neg fun hb => h (hd.mp hb), if_neg h]
    rfl

/-- A key-down event changes nothing but possibly the stored direction. -/
theorem key_down_event_fields (s : GameState) (k : Option KeyCode) :
    (s.key_down_event k).player.state = s.player.state ∧
    (s.key_down_event k).player.body = s.player.body ∧
    (s.key_down_event k).obstacles = s.obstacles ∧
    (s.key_down_event k).score = s.score := by
  cases k with
  | none => exact ⟨rfl, rfl, rfl, rfl⟩
  | some kc => cases kc <;> simp [GameState.key_down_event, Direction.from_keycode, Option.bind]

/-- The direction stored by a key-down event: the mapped key when the key
maps to a direction, the previous direction otherwise. -/
theorem key_down_event_dir (s : GameState) (k : Option KeyCode) :
    (s.key_down_event k).player.dir =
      match k.bind Direction.from_keycode with
      | Option.some d => d
      | Option.none => s.player.dir := by
  cases k with
  | none => rfl
  | some kc => cases kc <;> simp [GameState.key_down_event, Direction.from_keycode, Option.bind]

/-- A player that is Dead before Player::update is Dead after it. -/
theorem player_update_dead_absorb (p : Player) (dir : Direction) (obstacles : List Obstacle)
    (h : p.state = PlayerState.dead) :
    (p.update dir obstacles).state = PlayerState.dead := by
  rw [player_update_eq]
  split_ifs <;> simp [h]

/-- One step changes the player's state to Dead or leaves it alone. -/
theorem step_player_state (s : GameState) (e : Ev) :
    (s.step e).player.state = s.player.state ∨
    (s.step e).player.state = PlayerState.dead := by
  cases e with
  | tick spawn col =>
      show (s.tick spawn col).player.state = s.player.state ∨
          (s.tick spawn col).player.state = PlayerState.dead
      rw [tick_player_eq, bounce_state, player_update_eq]
      split_ifs
      · exact Or.inr rfl
      · exact Or.inl rfl
  | key k =>
      exact Or.inl (key_down_event_fields s k).1

/-- One step from a Dead player leaves it Dead. -/
theorem step_dead_absorb (s : GameState) (e : Ev)
    (h : s.player.state = PlayerState.dead) :
    (s.step e).player.state = PlayerState.dead := by
  rcases step_player_state s e with h1 | h1
  · rw [h1, h]
  · exact h1

/-- Ticks never decrease the score; key events leave it unchanged. -/
theorem step_score_le (s : GameState) (e : Ev) :
    s.score ≤ (s.step e).score := by
  cases e with
  | tick spawn col =>
      show s.score ≤ (s.tick spawn col).score
      rw [tick_score_eq]
      split_ifs
      · linarith
      · exact le_refl _
  | key k =>
      show s.score ≤ (s.key_down_event k).score
      rw [(key_down_event_fields s k).2.2.2]

/-- Over any event sequence the score never decreases. -/
theorem run_score_le (s : GameState) (evs : List Ev) :
    s.score ≤ (s.run evs).score := by
  induction evs generalizing s with
  | nil => exact le_refl _
  | cons e evs ih =>
      exact le_trans (step_score_le s e) (ih (s.step e))

/-- Over any event sequence a Dead player stays Dead. -/
theorem run_dead_absorb (s : GameState) (evs : List Ev)
    (h : s.player.state = PlayerState.dead) :
    (s.run evs).player.state = PlayerState.dead := by
  induction evs generalizing s with
  | nil => exact h
  | cons e evs ih =>
      exact ih (s.step e) (step_dead_absorb s e h)

/-- A state exhibiting the tick ordering: player at the start position,
one obstacle two rows above it. -/
def c1_state : GameState :=
  { player := Player.new (GridPosition.new 15 19),
    obstacles := [Obstacle.new (GridPosition.new 15 17)],
    score := 0 }

/-- Claim C1 counterexample: with the player at (15, 19) and one obstacle
at (15, 17), the source's tick leaves the player Alive (Player::update sees
the obstacle at row 17, two rows away), while a tick that advances and
culls the obstacles first would kill the player (the obstacle would be at
row 18, within tolerance): Player::update does not receive the
post-advance, post-cull collection. -/
theorem tick_order_counterexample :
    (c1_state.tick false 0).player.state = PlayerState.alive ∧
    (c1_state.tick_spec_order false 0).player.state = PlayerState.dead := by
  decide

/-- Claim C1 (corrected): within GameState::update's tick body the player
update runs first, so Player::update receives the obstacle collection as it
stood at the start of the tick — before the advance, the cull and the
spawn; consequently the player component of the tick result is independent
of the tick's random draws. -/
theorem tick_player_uses_initial_obstacles (s : GameState) (spawn : Bool) (col : ℤ) :
    (s.tick spawn col).player = (s.player.update s.player.dir s.obstacles).bounce ∧
    ∀ spawn2 col2, (s.tick spawn col).player = (s.tick spawn2 col2).player := by
  refine ⟨tick_player_eq s spawn col, fun spawn2 col2 => ?_⟩
  rw [tick_player_eq, tick_player_eq]

/-- Claim C2 counterexample: for the in-range random draw (5, 7),
GameState::new seeds its single obstacle at row 7, not row 0 —
GridPosition::random draws the row uniformly over [0, 20) rather than
fixing it to 0. -/
theorem new_seed_row_counterexample :
    ∃ o ∈ (GameState.new 5 7).obstacles, o.pos.y ≠ 0 := by
  decide

/-- Claim C2 (corrected): GameState::new places the player at
(GRID_SIZE.0 / 2, GRID_SIZE.1 - 1) = (15, 19) with state Alive and
direction None, sets the score to 0, and seeds exactly one obstacle at the
randomly drawn position — column uniform over [0, 30) and row uniform over
[0, 20), not necessarily row 0. -/
theorem new_initial_state (rx ry : ℤ)
    (hx : 0 ≤ rx ∧ rx < GRID_SIZE.1) (hy : 0 ≤ ry ∧ ry < GRID_SIZE.2) :
    (GameState.new rx ry).player.body.pos = GridPosition.new (GRID_SIZE.1 / 2) (GRID_SIZE.2 - 1) ∧
    (GameState.new rx ry).player.state = PlayerState.alive ∧
    (GameState.new rx ry).player.dir = Direction.none ∧
    (GameState.new rx ry).score = 0 ∧
    (GameState.new rx ry).obstacles = [Obstacle.new (GridPosition.new rx ry)] :=
  ⟨rfl, rfl, rfl, rfl, rfl⟩

/-- Witness for the corrected C2 at the concrete draw (5, 7). -/
theorem new_initial_state_witness :
    ((0 ≤ (5 : ℤ) ∧ (5 : ℤ) < GRID_SIZE.1) ∧ (0 ≤ (7 : ℤ) ∧ (7 : ℤ) < GRID_SIZE.2)) ∧
    ((GameState.new 5 7).player.body.pos = GridPosition.new (GRID_SIZE.1 / 2) (GRID_SIZE.2 - 1) ∧
      (GameState.new 5 7).player.state = PlayerState.alive ∧
      (GameState.new 5 7).player.dir = Direction.none ∧
      (GameState.new 5 7).score = 0 ∧
      (GameState.new 5 7).obstacles = [Obstacle.new (GridPosition.new 5 7)]) :=
  ⟨⟨by decide, by decide⟩, new_initial_state 5 7 (by decide) (by decide)⟩

/-- Claim C3: Player::update moves the body by the given direction and
stores the direction; the player then becomes Dead exactly when some
obstacle of the given collection is within tolerance 1 of the moved
position in both coordinates, in which case the position is reset to
(15, 19) and the direction to None; otherwise state, moved position and
stored direction are kept. -/
theorem player_update_collision_semantics (p : Player) (dir : Direction)
    (obstacles : List Obstacle) :
    (collides_within (GridPosition.new_for_move p.body.pos dir) obstacles 1 →
        (p.update dir obstacles).state = PlayerState.dead ∧
        (p.update dir obstacles).body.pos = GridPosition.new (GRID_SIZE.1 / 2) (GRID_SIZE.2 - 1) ∧
        (p.update dir obstacles).dir = Direction.none) ∧
    (¬ collides_within (GridPosition.new_for_move p.body.pos dir) obstacles 1 →
        (p.update dir obstacles).state = p.state ∧
        (p.update dir obstacles).body.pos = GridPosition.new_for_move p.body.pos dir ∧
        (p.update dir obstacles).dir = dir) ∧
    (p.state = PlayerState.alive →
        ((p.update dir obstacles).state = PlayerState.dead ↔
          collides_within (GridPosition.new_for_move p.body.pos dir) obstacles 1)) := by
  rw [player_update_eq]
  by_cases h : collides_within (GridPosition.new_for_move p.body.pos dir) obstacles 1
  · rw [if_pos h]
    exact ⟨fun _ => ⟨rfl, rfl, rfl⟩, fun hn => absurd h hn, fun _ => ⟨fun _ => h, fun _ => rfl⟩⟩
  · rw [if_neg h]
    refine ⟨fun hc => absurd hc h, fun _ => ⟨rfl, rfl, rfl⟩, fun ha => ⟨fun hd => ?_, fun hc => absurd hc h⟩⟩
    rw [ha] at hd
    exact absurd hd (by simp)

/-- Witness for C3: a player stepping from (15, 19) with an obstacle at
(15, 18) is within tolerance and dies. -/
theorem player_update_collision_semantics_witness :
    collides_within
      (GridPosition.new_for_move (Player.new (GridPosition.new 15 19)).body.pos Direction.none)
      [Obstacle.new (GridPosition.new 15 18)] 1 ∧
    ((Player.new (GridPosition.new 15 19)).update Direction.none
        [Obstacle.new (GridPosition.new 15 18)]).state = PlayerState.dead :=
  ⟨by decide,
    ((player_update_collision_semantics (Player.new (GridPosition.new 15 19)) Direction.none
        [Obstacle.new (GridPosition.new 15 18)]).1 (by decide)).1⟩

/-- Claim C4: culling invariant — after any tick, from any state and for
any random draws, every obstacle in the collection has row strictly below
the grid height GRID_SIZE.1 = 20. -/
theorem tick_culling_invariant (s : GameState) (spawn : Bool) (col : ℤ) :
    ∀ o ∈ (s.tick spawn col).obstacles, o.pos.y < GRID_SIZE.2 := by
  intro o ho
  rw [tick_obstacles_eq] at ho
  simp only [GameState.update_obstacle] at ho
  split_ifs at ho with hs
  · rcases List.mem_append.mp ho with h1 | h1
    · exact of_decide_eq_true (List.mem_filter.mp h1).2
    · rw [List.mem_singleton.mp h1]
      exact (by decide : (0 : ℤ) < GRID_SIZE.2)
  · exact of_decide_eq_true (List.mem_filter.mp ho).2

/-- Witness for C4: one tick from a seeded state, checked on the obstacle
it contains. -/
theorem tick_culling_invariant_witness :
    Obstacle.new (GridPosition.new 3 6) ∈ ((GameState.new 3 5).tick false 0).obstacles ∧
    (Obstacle.new (GridPosition.new 3 6)).pos.y < GRID_SIZE.2 :=
  ⟨by decide,
    tick_culling_invariant (GameState.new 3 5) false 0
      (Obstacle.new (GridPosition.new 3 6)) (by decide)⟩

/-- Claim C5: if the player ends the tick Alive the score grows by exactly
1/10; if it ends the tick Dead the score is unchanged; and the score never
decreases, over a single tick or over any event sequence. -/
theorem tick_score_monotone (s : GameState) (spawn : Bool) (col : ℤ) :
    ((s.tick spawn col).player.state = PlayerState.alive →
        (s.tick spawn col).score = s.score + 1 / 10) ∧
    ((s.tick spawn col).player.state = PlayerState.dead →
        (s.tick spawn col).score = s.score) ∧
    s.score ≤ (s.tick spawn col).score ∧
    ∀ evs : List Ev, s.score ≤ (s.run evs).score := by
  refine ⟨fun ha => ?_, fun hd => ?_, ?_, run_score_le s⟩
  · rw [tick_score_eq, if_pos ha]
  · rw [tick_score_eq, if_neg ?_]
    rw [hd]
    simp
  · exact step_score_le s (Ev.tick spawn col)

/-- Witness for C5: one tick from a freshly constructed state leaves the
player Alive and the score at 1/10. -/
theorem tick_score_monotone_witness :
    ((GameState.new 3 5).tick false 0).player.state = PlayerState.alive ∧
    ((GameState.new 3 5).tick false 0).score = (GameState.new 3 5).score + 1 / 10 :=
  ⟨by decide, (tick_score_monotone (GameState.new 3 5) false 0).1 (by decide)⟩

/-- Claim C6: if the player after its update sits at negative x with
direction Left the tick flips the direction to Right; if it sits at
x ≥ GRID_SIZE.0 with direction Right the tick flips it to Left; and the
bounce never touches the body — the player's body after the full tick is
exactly the body produced by the player update. -/
theorem tick_boundary_bounce (s : GameState) (spawn : Bool) (col : ℤ) :
    ((s.player.update s.player.dir s.obstacles).body.pos.x < 0 ∧
        (s.player.update s.player.dir s.obstacles).dir = Direction.left →
      (s.tick spawn col).player.dir = Direction.right) ∧
    ((s.player.update s.player.dir s.obstacles).body.pos.x ≥ GRID_SIZE.1 ∧
        (s.player.update s.player.dir s.obstacles).dir = Direction.right →
      (s.tick spawn col).player.dir = Direction.left) ∧
    (s.tick spawn col).player.body = (s.player.update s.player.dir s.obstacles).body := by
  rw [tick_player_eq]
  refine ⟨fun h => ?_, fun h => ?_, bounce_body _⟩
  · simp only [Player.bounce, if_pos h]
    rw [if_neg ?_]
    rintro ⟨hge, -⟩
    have h30 : (0 : ℤ) ≤ GRID_SIZE.1 := by decide
    omega
  · have hq : ¬((s.player.update s.player.dir s.obstacles).body.pos.x < 0 ∧
        (s.player.update s.player.dir s.obstacles).dir = Direction.left) := by
      rintro ⟨-, hdir⟩
      rw [h.2] at hdir
      exact absurd hdir (by simp)
    simp only [Player.bounce, if_neg hq, if_pos h]

/-- A state putting the player at the left edge moving Left. -/
def c6_state : GameState :=
  { player :=
      { body := Segment.new (GridPosition.new 0 19),
        dir := Direction.left,
        state := PlayerState.alive },
    obstacles := [],
    score := 0 }

/-- Witness for C6: from x = 0 moving Left with no obstacles, the update
puts the player at x = -1 still moving Left, and the tick flips the
direction to Right. -/
theorem tick_boundary_bounce_witness :
    ((c6_state.player.update c6_state.player.dir c6_state.obstacles).body.pos.x < 0 ∧
      (c6_state.player.update c6_state.player.dir c6_state.obstacles).dir = Direction.left) ∧
    (c6_state.tick false 0).player.dir = Direction.right :=
  ⟨by decide, (tick_boundary_bounce c6_state false 0).1 (by decide)⟩

/-- Claim C7: the only state change any operation performs is Alive to
Dead — every step either preserves the player's state or moves an Alive
player to Dead — and from any state with a Dead player, every sequence of
ticks and key events leaves the player Dead. -/
theorem player_state_machine (s : GameState) :
    (∀ e : Ev, (s.step e).player.state = s.player.state ∨
        (s.player.state = PlayerState.alive ∧ (s.step e).player.state = PlayerState.dead)) ∧
    (s.player.state = PlayerState.dead →
        ∀ evs : List Ev, (s.run evs).player.state = PlayerState.dead) := by
  refine ⟨fun e => ?_, fun h evs => run_dead_absorb s evs h⟩
  rcases step_player_state s e with h1 | h1
  · exact Or.inl h1
  · cases hs : s.player.state with
    | alive => exact Or.inr ⟨rfl, h1⟩
    | dead => exact Or.inl (by rw [h1])

/-- A state with a Dead player, for the C7 witness. -/
def c7_state : GameState :=
  { player :=
      { body := Segment.new (GridPosition.new 15 19),
        dir := Direction.none,
        state := PlayerState.dead },
    obstacles := [],
    score := 2 }

/-- Witness for C7: a Dead player stays Dead across a key event followed
by a tick. -/
theorem player_state_machine_witness :
    c7_state.player.state = PlayerState.dead ∧
    (c7_state.run [Ev.key (Option.some KeyCode.left), Ev.tick true 3]).player.state =
      PlayerState.dead :=
  ⟨by decide,
    (player_state_machine c7_state).2 (by decide) [Ev.key (Option.some KeyCode.left), Ev.tick true 3]⟩

/-- Claim C8: each tick grows the obstacle count by at most one; when the
spawn draw does not fire the count does not grow at all; and every
obstacle present after the tick is either an old obstacle advanced one row
or the newly spawned one at row 0 with a column in [0, GRID_SIZE.0). -/
theorem tick_spawn_bounds (s : GameState) (spawn : Bool) (col : ℤ)
    (h : 0 ≤ col ∧ col < GRID_SIZE.1) :
    (s.tick spawn col).obstacles.length ≤ s.obstacles.length + 1 ∧
    (spawn = false → (s.tick spawn col).obstacles.length ≤ s.obstacles.length) ∧
    ∀ o ∈ (s.tick spawn col).obstacles,
      (∃ o2 ∈ s.obstacles, o.pos = GridPosition.new o2.pos.x (o2.pos.y + 1)) ∨
      (spawn = true ∧ o.pos.y = 0 ∧ 0 ≤ o.pos.x ∧ o.pos.x < GRID_SIZE.1) := by
  have hobs := tick_obstacles_eq s spawn col
  rw [hobs]
  simp only [GameState.update_obstacle]
  have hlen :
      (List.filter (fun obstacle => decide (obstacle.pos.y < GRID_SIZE.2))
        (List.map
          (fun obstacle =>
            { obstacle with pos := GridPosition.new obstacle.pos.x (obstacle.pos.y + 1) })
          s.obstacles)).length ≤ s.obstacles.length := by
    refine le_trans (List.length_filter_le _ _) (le_of_eq ?_)
    rw [List.length_map]
  split_ifs with hs
  · refine ⟨?_, fun hfalse => ?_, fun o ho => ?_⟩
    · rw [List.length_append]
      simpa using Nat.add_le_add_right hlen 1
    · rw [hfalse] at hs
      exact absurd hs (by simp)
    · rcases List.mem_append.mp ho with h1 | h1
      · left
        obtain ⟨o2, ho2, hfo⟩ := List.mem_map.mp (List.mem_filter.mp h1).1
        exact ⟨o2, ho2, by rw [← hfo]⟩
      · right
        rw [List.mem_singleton.mp h1]
        exact ⟨hs, rfl, h.1, h.2⟩
  · refine ⟨le_trans hlen (Nat.le_succ _), fun _ => hlen, fun o ho => ?_⟩
    left
    obtain ⟨o2, ho2, hfo⟩ := List.mem_map.mp (List.mem_filter.mp ho).1
    exact ⟨o2, ho2, by rw [← hfo]⟩

/-- Witness for C8: a spawning tick from a seeded one-obstacle state ends
with at most two obstacles. -/
theorem tick_spawn_bounds_witness :
    (0 ≤ (7 : ℤ) ∧ (7 : ℤ) < GRID_SIZE.1) ∧
    ((GameState.new 3 5).tick true 7).obstacles.length ≤ (GameState.new 3 5).obstacles.length + 1 :=
  ⟨by decide, (tick_spawn_bounds (GameState.new 3 5) true 7 (by decide)).1⟩

/-- A state with a Dead player whose stored direction is None, for C9. -/
def c9_state : GameState :=
  { player :=
      { body := Segment.new (GridPosition.new 15 19),
        dir := Direction.none,
        state := PlayerState.dead },
    obstacles := [],
    score := 1 }

/-- Claim C9 counterexample: key_down_event never inspects the player's
state, so on a Dead player with stored direction None a Left key-down
changes the stored direction to Left — the simulation state is not left
unchanged. -/
theorem key_down_dead_counterexample :
    c9_state.player.state = PlayerState.dead ∧
    (c9_state.key_down_event (Option.some KeyCode.left)).player.dir ≠ c9_state.player.dir := by
  decide

/-- Claim C9 (corrected): a left/right key-down on a Dead player is
accepted without failure and leaves the player's state, the player's body,
the obstacles and the score unchanged, but it stores the pressed direction
exactly as it would for an Alive player. -/
theorem key_down_dead_semantics (s : GameState) (k : Option KeyCode)
    (h : s.player.state = PlayerState.dead) :
    (s.key_down_event k).player.state = PlayerState.dead ∧
    (s.key_down_event k).player.body = s.player.body ∧
    (s.key_down_event k).obstacles = s.obstacles ∧
    (s.key_down_event k).score = s.score ∧
    (s.key_down_event k).player.dir =
      (match k.bind Direction.from_keycode with
        | Option.some d => d
        | Option.none => s.player.dir) := by
  refine ⟨?_, (key_down_event_fields s k).2.1, (key_down_event_fields s k).2.2.1,
    (key_down_event_fields s k).2.2.2, key_down_event_dir s k⟩
  rw [(key_down_event_fields s k).1, h]

/-- Witness for the corrected C9 at a concrete Dead state and the Left
key. -/
theorem key_down_dead_semantics_witness :
    c9_state.player.state = PlayerState.dead ∧
    ((c9_state.key_down_event (Option.some KeyCode.left)).player.state = PlayerState.dead ∧
      (c9_state.key_down_event (Option.some KeyCode.left)).player.body = c9_state.player.body ∧
      (c9_state.key_down_event (Option.some KeyCode.left)).obstacles = c9_state.obstacles ∧
      (c9_state.key_down_event (Option.some KeyCode.left)).score = c9_state.score ∧
      (c9_state.key_down_event (Option.some KeyCode.left)).player.dir =
        (match (Option.some KeyCode.left).bind Direction.from_keycode with
          | Option.some d => d
          | Option.none => c9_state.player.dir)) :=
  ⟨by decide, key_down_dead_semantics c9_state (Option.some KeyCode.left) (by decide)⟩

/-- Claim C10: in every state reachable from GameState::new by ticks and
key events the player's row is GRID_SIZE.1 - 1 = 19 — horizontal moves
keep the row, the bounce only flips the direction, and the on-death reset
restores row 19. -/
theorem player_row_invariant (s : GameState) (h : Reachable s) :
    s.player.body.pos.y = GRID_SIZE.2 - 1 := by
  induction h with
  | init rx ry hx hy => rfl
  | step s e hs ih =>
      cases e with
      | tick spawn col =>
          show (s.tick spawn col).player.body.pos.y = GRID_SIZE.2 - 1
          rw [tick_player_eq, bounce_body, player_update_eq]
          split_ifs
          · rfl
          · cases hd : s.player.dir <;> exact ih
      | key k =>
          show (s.key_down_event k).player.body.pos.y = GRID_SIZE.2 - 1
          rw [(key_down_event_fields s k).2.1]
          exact ih

/-- Witness for C10 at the freshly constructed state for the draw (0, 0). -/
theorem player_row_invariant_witness :
    (GameState.new 0 0).player.body.pos.y = GRID_SIZE.2 - 1 :=
  player_row_invariant (GameState.new 0 0)
    (Reachable.init 0 0 (by decide) (by decide))
